import Mathlib

/-!
Verification of the M365 user-onboarding automation
(`src/m365_automation/user_onboarding.py`) against its specification.

The Python module orchestrates, per input record: validation, account
creation, license assignment (with retry), group membership and mailbox
configuration, with a compensating account delete when license assignment
fails.  Remote Graph API calls are modelled by an explicit environment
(`Env`) that fixes the outcome of every remote interaction; Python
exceptions raised by remote calls become `Except PyErr` values, and the
`secrets.choice` randomness of the password generator becomes an explicit
draw stream.  Each Lean definition below mirrors one Python function.
-/

namespace Onboarding

/-- Outcome of a remote call that may raise: `APIError` (the error type of the Graph SDK, carrying a message) or any other exception.  Mirrors the
`except APIError` / `except Exception` handler pairs in the source. -/
inductive PyErr where
  | apiError (msg : String)
  | other (msg : String)
deriving DecidableEq, Repr

instance {ε α : Type} [DecidableEq ε] [DecidableEq α] :
    DecidableEq (Except ε α) := fun x y =>
  match x, y with
  | .ok a, .ok b =>
    if h : a = b then .isTrue (by rw [h])
    else .isFalse (by intro hc; cases hc; exact h rfl)
  | .ok _, .error _ => .isFalse (by intro hc; cases hc)
  | .error _, .ok _ => .isFalse (by intro hc; cases hc)
  | .error a, .error b =>
    if h : a = b then .isTrue (by rw [h])
    else .isFalse (by intro hc; cases hc; exact h rfl)

/-- Python `str.upper()` (per-character ASCII uppercasing), modelled
character by character so it reduces in the kernel. -/
def pyUpper (s : String) : String := String.mk (s.data.map Char.toUpper)

/-- Python `str.lower()`. -/
def pyLower (s : String) : String := String.mk (s.data.map Char.toLower)

/-- Python `str.strip()`: whitespace removed from both ends. -/
def pyStrip (s : String) : String :=
  String.mk
    (((s.data.dropWhile Char.isWhitespace).reverse.dropWhile
        Char.isWhitespace).reverse)

/-- Splitting on a separator character, as Python `str.split(sep)`:
`"".split(sep)` gives `[""]`, empty segments are kept. -/
def splitCharAux (sep : Char) : List Char → List Char → List (List Char)
  | [], acc => [acc.reverse]
  | c :: cs, acc =>
    if c = sep then acc.reverse :: splitCharAux sep cs []
    else splitCharAux sep cs (c :: acc)

/-- Python `s.split(sep)` for a one-character separator. -/
def pySplit (sep : Char) (s : String) : List String :=
  (splitCharAux sep s.data []).map String.mk

/-- Mapping `LICENSE_SKU_MAPPING` from the source: symbolic tier → SKU part number,
with `NONE` mapped to Python `None` (here `none`). -/
def LICENSE_SKU_MAPPING : List (String × Option String) :=
  [("E3", some "SPE_E3"), ("E5", some "SPE_E5"),
   ("INTUNE", some "INTUNE_A_D"), ("NONE", none)]

/-- Python `LICENSE_SKU_MAPPING.get(k)`: absent key and a stored `None`
value are both returned as `None`. -/
def mappingGet (k : String) : Option String :=
  (LICENSE_SKU_MAPPING.lookup k).getD none

/-- The password alphabet of `generate_password`:
`string.ascii_letters + string.digits + "!@#$%^&*"`. -/
def alphabet : List Char :=
  ("abcdefghijklmnopqrstuvwxyz" ++ "ABCDEFGHIJKLMNOPQRSTUVWXYZ"
    ++ "0123456789" ++ "!@#$%^&*").toList

/-- The fixed symbol set checked by `generate_password`. -/
def symbolSet : List Char := "!@#$%^&*".toList

theorem alphabet_length : alphabet.length = 70 := by decide

/-- One candidate password: `length` independent draws from `alphabet`
(`secrets.choice(alphabet) for _ in range(length)`).  `draw i` is the
random index of the i-th draw, reduced mod the alphabet size. -/
def mkCandidate (draw : Nat → Nat) (length : Nat) : List Char :=
  (List.range length).map fun i =>
    alphabet.get ⟨draw i % alphabet.length, Nat.mod_lt _ (by decide)⟩

/-- The complexity condition of `generate_password`: at least one
lowercase, one uppercase, one digit, one symbol of the fixed set. -/
def meetsComplexity (pw : List Char) : Bool :=
  pw.any (fun c => c.isLower) && pw.any (fun c => c.isUpper)
    && pw.any (fun c => c.isDigit) && pw.any (fun c => symbolSet.contains c)

/-- The rejection-sampling loop of `generate_password`: candidate `k` uses
draws `k*length .. k*length+length-1`; the first candidate meeting the
complexity condition is returned.  `fuel` bounds how many candidates are
examined (the Python `while True` loop has no bound; a run that never
meets the condition is modelled by `none`). -/
def genLoop (draw : Nat → Nat) (length : Nat) : Nat → Nat → Option (List Char)
  | 0, _ => none
  | fuel + 1, k =>
    let password := mkCandidate (fun i => draw (k * length + i)) length
    if meetsComplexity password then some password
    else genLoop draw length fuel (k + 1)

/-- Model of `UserOnboardingManager.generate_password(length=16)`. -/
def generate_password (fuel : Nat) (draw : Nat → Nat) (length : Nat := 16) :
    Option (List Char) :=
  genLoop draw length fuel 0

/-- Model of `UserOnboardingManager.get_sku_id`.  Here `sku_cache = none` models an
uninitialized cache (`None` in Python); the `RuntimeError` raise and the
falsy-cache check are `Except.error`.  Returns `.ok none` where the Python
code returns `None`. -/
def get_sku_id (sku_cache : Option (List (String × String)))
    (license_type : String) : Except String (Option String) :=
  match sku_cache with
  | none => .error "SKU cache not initialized. Call initialize_sku_cache() first."
  | some cache =>
    if cache = [] then
      .error "SKU cache not initialized. Call initialize_sku_cache() first."
    else if pyUpper license_type = "NONE" then
      .ok none
    else
      match mappingGet (pyUpper license_type) with
      | none => .ok none
      | some sku_part_number =>
        match cache.lookup sku_part_number with
        | none => .ok none
        | some sku_id => if sku_id = "" then .ok none else .ok (some sku_id)

/-- One input record, a row of the CSV as a Python dict: a `none` field is
an absent key, `some ""` a present-but-empty cell (both falsy in the
truthiness checks `user_data.get(...)` of the source). -/
structure UserData where
  first_name : Option String := none
  last_name : Option String := none
  user_principal_name : Option String := none
  license_type : Option String := none
  display_name : Option String := none
  department : Option String := none
  job_title : Option String := none
  manager_email : Option String := none
  groups : Option String := none
  mailbox_delegation : Option String := none

/-- Fixed outcomes of every remote Graph call the workflow of a single record
can make.  Remote calls are deterministic data here: the batch is strictly
serial, so one record sees one fixed environment. -/
structure Env where
  /-- Outcome of `self.client.users.get()` in `validate_user_data`: the principal
  names of the existing users, or the exception the call raised. -/
  existingUsers : Except PyErr (List String)
  /-- Outcome of `users.get` filtered on the principal name of a manager: the matching
  principal names, or the exception raised. -/
  managerLookup : String → Except PyErr (List String)
  /-- Number of candidate passwords the draw stream is examined for. -/
  pwFuel : Nat
  /-- The random draw stream feeding `secrets.choice`. -/
  pwDraw : Nat → Nat
  /-- Outcome of `self.client.users.post(new_user)`: the id of the created user, or `none`
  when the call raised (`APIError` and other exceptions are handled
  identically in `create_user`). -/
  createPost : Option String
  /-- Content of `self.sku_cache` at the time the record is processed. -/
  sku_cache : Option (List (String × String))
  /-- Outcome of the `assign_license.post` call on the given attempt
  number (0-based). -/
  licenseOutcomes : Nat → Except PyErr Unit
  /-- Outcome of `groups.get` filtered on a display name: ids of matching groups, or
  the exception raised. -/
  groupLookup : String → Except PyErr (List String)
  /-- Outcome of `members.ref.post` for the group with the given display name. -/
  groupAdd : String → Except PyErr Unit
  /-- The mailbox-settings `patch` call in `configure_mailbox`. -/
  mailboxPatch : Except PyErr Unit

/-- The required fields checked first by `validate_user_data`, with their
values in the record. -/
def requiredFieldVals (ud : UserData) : List (String × Option String) :=
  [("first_name", ud.first_name), ("last_name", ud.last_name),
   ("user_principal_name", ud.user_principal_name),
   ("license_type", ud.license_type)]

/-- The `Missing required field` errors accumulated by the first loop of
`validate_user_data`. -/
def requiredFieldErrors (ud : UserData) : List String :=
  (requiredFieldVals ud).foldr
    (fun fv es =>
      (if fv.2.getD "" = "" then ["Missing required field: " ++ fv.1] else []) ++ es)
    []

/-- The `Invalid UPN format` check of `validate_user_data`. -/
def upnFormatErrors (ud : UserData) : List String :=
  let upn := ud.user_principal_name.getD ""
  if upn ≠ "" && !(upn.toList.contains '@') then
    ["Invalid UPN format: " ++ upn]
  else []

/-- The duplicate-principal check of `validate_user_data`; a failing remote
lookup is logged and the check skipped. -/
def duplicateErrors (ud : UserData) (env : Env) : List String :=
  let upn := ud.user_principal_name.getD ""
  match env.existingUsers with
  | .error _ => []
  | .ok upns =>
    if upns ≠ [] then
      if upns.contains upn then ["User already exists: " ++ upn] else []
    else []

/-- The manager-existence check of `validate_user_data`; run only when a
manager email is present and truthy, skipped when the lookup raises. -/
def managerErrors (ud : UserData) (env : Env) : List String :=
  match ud.manager_email with
  | none => []
  | some m =>
    if m = "" then []
    else
      match env.managerLookup m with
      | .error _ => []
      | .ok found =>
        if found = [] then ["Manager not found: " ++ m] else []

/-- The license-tier check of `validate_user_data`: the uppercased tier
must be a key of `LICENSE_SKU_MAPPING`. -/
def licenseTypeErrors (ud : UserData) : List String :=
  let lt := pyUpper (ud.license_type.getD "")
  if (LICENSE_SKU_MAPPING.lookup lt).isNone then
    ["Invalid license type: " ++ lt ++ ". Must be one of: E3, E5, INTUNE, NONE"]
  else []

/-- Model of `UserOnboardingManager.validate_user_data`: accumulates the errors of
every check in order and returns `(len(errors) == 0, errors)`. -/
def validate_user_data (ud : UserData) (env : Env) : Bool × List String :=
  let errors := requiredFieldErrors ud ++ upnFormatErrors ud
    ++ duplicateErrors ud env ++ managerErrors ud env ++ licenseTypeErrors ud
  (errors.isEmpty, errors)

/-- The dictionary `create_user` returns on success. -/
structure CreatedInfo where
  user_id : String
  upn : String
  display_name : String
  temp_password : List Char
  created : Bool
deriving DecidableEq, Repr

/-- Model of `UserOnboardingManager.create_user`: generates a password, posts the
new user, and returns the info dict, or `none` when the remote call
raised (`APIError` or otherwise). -/
def create_user (ud : UserData) (env : Env) : Option CreatedInfo :=
  let upn := ud.user_principal_name.getD ""
  match generate_password env.pwFuel env.pwDraw 16 with
  | none => none
  | some temp_password =>
    match env.createPost with
    | none => none
    | some user_id =>
      some { user_id := user_id
             upn := upn
             display_name := ud.display_name.getD
               (ud.first_name.getD "" ++ " " ++ ud.last_name.getD "")
             temp_password := temp_password
             created := true }

/-- Result of one `assign_license` call: the returned bool, the number of
remote `assign_license.post` calls made, and the sleeps performed (in
seconds, in order). -/
structure LicenseOutcome where
  success : Bool
  attemptsMade : Nat
  delays : List Nat
deriving DecidableEq, Repr

/-- The `for attempt in range(max_retries)` loop of `assign_license`,
iterating over the remaining attempt numbers.  Each iteration re-reads the
SKU id; a `RuntimeError` from `get_sku_id` falls into the
`except Exception` handler (return `False`), a falsy SKU id returns
`False`, an `APIError` from the remote call sleeps and doubles the delay
unless the attempt was the last (`attempt < max_retries - 1`). -/
def assignLoop (sku_cache : Option (List (String × String)))
    (license_type : String) (outcomes : Nat → Except PyErr Unit) :
    List Nat → Nat → Nat → List Nat → LicenseOutcome
  | [], _, made, ds => ⟨false, made, ds⟩
  | attempt :: rest, retry_delay, made, ds =>
    match get_sku_id sku_cache license_type with
    | .error _ => ⟨false, made, ds⟩
    | .ok none => ⟨false, made, ds⟩
    | .ok (some _) =>
      match outcomes attempt with
      | .ok _ => ⟨true, made + 1, ds⟩
      | .error (.apiError _) =>
        if attempt < 3 - 1 then
          assignLoop sku_cache license_type outcomes rest (retry_delay * 2)
            (made + 1) (ds ++ [retry_delay])
        else ⟨false, made + 1, ds⟩
      | .error (.other _) => ⟨false, made + 1, ds⟩

/-- Model of `UserOnboardingManager.assign_license`: immediate success for tier
`NONE` (any case) with no remote call; otherwise the retry loop with
`max_retries = 3` and initial `retry_delay = 2`. -/
def assign_license (sku_cache : Option (List (String × String)))
    (license_type : String) (outcomes : Nat → Except PyErr Unit) :
    LicenseOutcome :=
  if pyUpper license_type = "NONE" then ⟨true, 0, []⟩
  else assignLoop sku_cache license_type outcomes (List.range 3) 2 0 []

/-- Whether `pat` occurs contiguously in `s` (as `pat in s` in Python). -/
def startsWithChars : List Char → List Char → Bool
  | _, [] => true
  | [], _ :: _ => false
  | c :: s, p :: ps => c = p && startsWithChars s ps

/-- Substring occurrence test used for the `"already exist" in
str(e.message).lower()` check of `add_to_groups`. -/
def containsSubChars : List Char → List Char → Bool
  | [], pat => startsWithChars [] pat
  | c :: s, pat => startsWithChars (c :: s) pat || containsSubChars s pat

/-- The body of `add_to_groups` for one group name: look the group up by
display name; no match records `False`; an `APIError` whose lowercased
message contains `already exist` (user already a member) records `True`;
any other exception records `False`. -/
def addOneGroup (env : Env) (group_name : String) : Bool :=
  let handleErr : PyErr → Bool := fun e =>
    match e with
    | .apiError msg =>
      containsSubChars (pyLower msg).toList "already exist".toList
    | .other _ => false
  match env.groupLookup group_name with
  | .error e => handleErr e
  | .ok [] => false
  | .ok (_ :: _) =>
    match env.groupAdd group_name with
    | .error e => handleErr e
    | .ok _ => true

/-- Model of `UserOnboardingManager.add_to_groups`: iterates the names, storing the
outcome of each name in the results dict (modelled as a partial map). -/
def add_to_groups (env : Env) (group_names : List String) :
    String → Option Bool :=
  group_names.foldl
    (fun results name =>
      fun k => if k = name then some (addOneGroup env name) else results k)
    (fun _ => none)

/-- Model of `UserOnboardingManager.configure_mailbox`: one remote patch call; any
exception is caught and reported as `False`. -/
def configure_mailbox (env : Env) : Bool :=
  match env.mailboxPatch with
  | .ok _ => true
  | .error _ => false

/-- The per-record result dict built by `onboard_user`.  `groups_added` is
the results dict of `add_to_groups` (a partial map). -/
structure OnboardingResult where
  upn : String
  success : Bool
  user_created : Bool
  license_assigned : Bool
  groups_added : String → Option Bool
  mailbox_configured : Bool
  temp_password : Option (List Char)
  errors : List String

/-- Observable remote side effects of `onboard_user` beyond the result
dict: which accounts `rollback_user_creation` deleted, and whether the
mailbox-configuration step was reached. -/
structure Trace where
  rollbacks : List String := []
  mailboxAttempted : Bool := false
deriving DecidableEq, Repr

/-- The semicolon splitting of the `groups` cell in `onboard_user`:
a strip-split-filter comprehension over the semicolon-separated cell. -/
def parseGroups (groups_str : String) : List String :=
  ((pySplit ';' groups_str).map pyStrip).filter (fun g => g ≠ "")

/-- Model of `UserOnboardingManager.onboard_user`: the full per-record workflow.
Paths, in source order: validation failure; creation failure; license
failure (append error, roll the account back, return); otherwise groups,
mailbox, then `success = True`.  The `except` block at the end of the
source is unreachable here: the exceptions of every step are already handled
inside the step, and the `license_type` subscript cannot raise once
validation passed. -/
def onboard_user (ud : UserData) (env : Env) : OnboardingResult × Trace :=
  let upn := ud.user_principal_name.getD "Unknown"
  let result : OnboardingResult :=
    { upn := upn
      success := false
      user_created := false
      license_assigned := false
      groups_added := fun _ => none
      mailbox_configured := false
      temp_password := none
      errors := [] }
  let v := validate_user_data ud env
  if v.1 = false then
    ({ result with errors := v.2 }, {})
  else
    match create_user ud env with
    | none => ({ result with errors := ["User creation failed"] }, {})
    | some user_info =>
      let result := { result with
                      user_created := true
                      temp_password := some user_info.temp_password }
      let lic := assign_license env.sku_cache (ud.license_type.getD "")
        env.licenseOutcomes
      let result := { result with license_assigned := lic.success }
      if lic.success = false then
        ({ result with errors := result.errors ++ ["License assignment failed"] },
         { rollbacks := [user_info.user_id] })
      else
        let groups_str := pyStrip (ud.groups.getD "")
        let result :=
          if groups_str ≠ "" then
            { result with
              groups_added := add_to_groups env (parseGroups groups_str) }
          else result
        let result := { result with
                        mailbox_configured := configure_mailbox env }
        ({ result with success := true }, { mailboxAttempted := true })

/-! ## Helper lemmas -/

theorem mkCandidate_length (draw : Nat → Nat) (length : Nat) :
    (mkCandidate draw length).length = length := by
  simp [mkCandidate]

theorem mkCandidate_mem (draw : Nat → Nat) (length : Nat) (c : Char)
    (hc : c ∈ mkCandidate draw length) : c ∈ alphabet := by
  simp only [mkCandidate, List.mem_map] at hc
  obtain ⟨i, _, rfl⟩ := hc
  exact List.get_mem _ _ _

theorem validate_fst_isEmpty (ud : UserData) (env : Env) :
    (validate_user_data ud env).1 = (validate_user_data ud env).2.isEmpty := rfl

theorem onboard_path_validation_fail (ud : UserData) (env : Env)
    (hv : (validate_user_data ud env).1 = false) :
    onboard_user ud env =
      ({ upn := ud.user_principal_name.getD "Unknown"
         success := false
         user_created := false
         license_assigned := false
         groups_added := fun _ => none
         mailbox_configured := false
         temp_password := none
         errors := (validate_user_data ud env).2 },
       { rollbacks := [], mailboxAttempted := false }) := by
  simp [onboard_user, hv]

theorem onboard_path_create_fail (ud : UserData) (env : Env)
    (hv : (validate_user_data ud env).1 = true)
    (hc : create_user ud env = none) :
    onboard_user ud env =
      ({ upn := ud.user_principal_name.getD "Unknown"
         success := false
         user_created := false
         license_assigned := false
         groups_added := fun _ => none
         mailbox_configured := false
         temp_password := none
         errors := ["User creation failed"] },
       { rollbacks := [], mailboxAttempted := false }) := by
  simp [onboard_user, hv, hc]

theorem onboard_path_rollback (ud : UserData) (env : Env) (info : CreatedInfo)
    (hv : (validate_user_data ud env).1 = true)
    (hc : create_user ud env = some info)
    (hl : (assign_license env.sku_cache (ud.license_type.getD "")
            env.licenseOutcomes).success = false) :
    onboard_user ud env =
      ({ upn := ud.user_principal_name.getD "Unknown"
         success := false
         user_created := true
         license_assigned := false
         groups_added := fun _ => none
         mailbox_configured := false
         temp_password := some info.temp_password
         errors := ["License assignment failed"] },
       { rollbacks := [info.user_id], mailboxAttempted := false }) := by
  simp [onboard_user, hv, hc, hl]

theorem onboard_path_success (ud : UserData) (env : Env) (info : CreatedInfo)
    (hv : (validate_user_data ud env).1 = true)
    (hc : create_user ud env = some info)
    (hl : (assign_license env.sku_cache (ud.license_type.getD "")
            env.licenseOutcomes).success = true) :
    (onboard_user ud env).1.success = true ∧
    (onboard_user ud env).1.user_created = true ∧
    (onboard_user ud env).1.license_assigned = true ∧
    (onboard_user ud env).1.temp_password = some info.temp_password ∧
    (onboard_user ud env).1.errors = [] ∧
    (onboard_user ud env).2 = { rollbacks := [], mailboxAttempted := true } := by
  by_cases hg : pyStrip (ud.groups.getD "") = "" <;>
    simp [onboard_user, hv, hc, hl, hg]

theorem add_to_groups_foldl (env : Env) (names : List String)
    (acc : String → Option Bool) (k : String) :
    (names.foldl
      (fun results name =>
        fun q => if q = name then some (addOneGroup env name) else results q)
      acc) k =
      if k ∈ names then some (addOneGroup env k) else acc k := by
  induction names generalizing acc with
  | nil => simp
  | cons n ns ih =>
    rw [List.foldl_cons, ih]
    by_cases hk : k ∈ ns
    · simp [hk]
    · by_cases he : k = n
      · subst he; simp [hk]
      · simp [hk, he]

theorem genLoop_some (draw : Nat → Nat) (length : Nat) (fuel k : Nat)
    (pw : List Char) (h : genLoop draw length fuel k = some pw) :
    meetsComplexity pw = true ∧
    ∃ j, pw = mkCandidate (fun i => draw (j * length + i)) length := by
  induction fuel generalizing k with
  | zero => simp [genLoop] at h
  | succ fuel ih =>
    rw [genLoop] at h
    by_cases hm :
        meetsComplexity (mkCandidate (fun i => draw (k * length + i)) length) = true
    · rw [if_pos hm] at h
      obtain rfl : mkCandidate (fun i => draw (k * length + i)) length = pw :=
        Option.some.inj h
      exact ⟨hm, k, rfl⟩
    · rw [if_neg hm] at h
      exact ih (k + 1) h

end Onboarding

namespace Onboarding

/-! ## Claim theorems -/

/-- C8: every credential returned by `generate_password` has length at
least 16, contains at least one lowercase letter, one uppercase letter,
one digit and one symbol of the fixed set `!@#$%^&*`, and draws every
character from the fixed alphabet of letters, digits and those symbols. -/
theorem generate_password_spec (fuel : Nat) (draw : Nat → Nat)
    (pw : List Char) (h : generate_password fuel draw 16 = some pw) :
    16 ≤ pw.length ∧
    (∃ c ∈ pw, c.isLower = true) ∧
    (∃ c ∈ pw, c.isUpper = true) ∧
    (∃ c ∈ pw, c.isDigit = true) ∧
    (∃ c ∈ pw, c ∈ symbolSet) ∧
    (∀ c ∈ pw, c ∈ alphabet) := by
  obtain ⟨hm, j, rfl⟩ := genLoop_some draw 16 fuel 0 pw h
  simp only [meetsComplexity, Bool.and_eq_true, List.any_eq_true] at hm
  obtain ⟨⟨⟨hlow, hup⟩, hdig⟩, hsym⟩ := hm
  refine ⟨by rw [mkCandidate_length], hlow, hup, hdig, ?_, ?_⟩
  · obtain ⟨c, hc, hcs⟩ := hsym
    exact ⟨c, hc, by simpa using hcs⟩
  · intro c hc
    exact mkCandidate_mem _ _ c hc

/-- Concrete draw stream for the password-generator witness: first three
draws pick an uppercase letter, a digit and a symbol, the rest lowercase. -/
def drawW : Nat → Nat := fun i =>
  if i = 0 then 26 else if i = 1 then 52 else if i = 2 then 62 else 0

/-- The password `drawW` produces. -/
def pwW : List Char :=
  ['A', '0', '!', 'a', 'a', 'a', 'a', 'a', 'a', 'a', 'a', 'a', 'a', 'a', 'a', 'a']

theorem generate_password_spec_witness :
    16 ≤ pwW.length ∧
    (∃ c ∈ pwW, c.isLower = true) ∧
    (∃ c ∈ pwW, c.isUpper = true) ∧
    (∃ c ∈ pwW, c.isDigit = true) ∧
    (∃ c ∈ pwW, c ∈ symbolSet) ∧
    (∀ c ∈ pwW, c ∈ alphabet) :=
  generate_password_spec 1 drawW pwW (by decide)

/-- C9: `assign_license` with tier `NONE` in any letter case makes no
remote license-assignment call and returns success immediately. -/
theorem assign_license_none_noop (sku_cache : Option (List (String × String)))
    (license_type : String) (outcomes : Nat → Except PyErr Unit)
    (h : pyUpper license_type = "NONE") :
    assign_license sku_cache license_type outcomes =
      { success := true, attemptsMade := 0, delays := [] } := by
  simp [assign_license, h]

theorem assign_license_none_noop_witness :
    assign_license none "nOnE" (fun _ => .error (.apiError "boom")) =
      { success := true, attemptsMade := 0, delays := [] } :=
  assign_license_none_noop none "nOnE" (fun _ => .error (.apiError "boom"))
    (by decide)

/-- C3: on a tier that resolves to a SKU, the remote assignment is
attempted at most 3 times, the sleeps performed are exactly the prefix
`[2, 4]` matching the number of retried attempts (2s after the first
failed attempt, 4s after the second, none after the last), and — when no
attempt raises a non-`APIError` exception — the step fails if and only if
all 3 attempts fail. -/
theorem assign_license_retry_spec (sku_cache : Option (List (String × String)))
    (license_type : String) (outcomes : Nat → Except PyErr Unit) (sku : String)
    (h : get_sku_id sku_cache license_type = .ok (some sku)) :
    (assign_license sku_cache license_type outcomes).attemptsMade ≤ 3 ∧
    (assign_license sku_cache license_type outcomes).delays =
      [2, 4].take ((assign_license sku_cache license_type outcomes).attemptsMade - 1) ∧
    ((∀ i, i < 3 → ∀ m, outcomes i ≠ .error (.other m)) →
      ((assign_license sku_cache license_type outcomes).success = false ↔
        ∀ i, i < 3 → ∃ m, outcomes i = .error (.apiError m))) := by
  have hne : pyUpper license_type ≠ "NONE" := by
    intro he
    match hsc : sku_cache with
    | none => simp [get_sku_id] at h
    | some cache =>
      by_cases hc : cache = [] <;> simp [get_sku_id, hc, he] at h
  have hr : List.range 3 = [0, 1, 2] := rfl
  rw [assign_license, if_neg hne, hr]
  cases h0 : outcomes 0 with
  | ok u =>
    have key : assignLoop sku_cache license_type outcomes [0, 1, 2] 2 0 [] =
        { success := true, attemptsMade := 1, delays := [] } := by
      simp [assignLoop, h, h0]
    rw [key]
    refine ⟨by decide, by decide, fun _ => ?_⟩
    constructor
    · intro hfalse; exact absurd hfalse (by decide)
    · intro hall
      obtain ⟨m, hm⟩ := hall 0 (by omega)
      simp [h0] at hm
  | error e0 =>
    cases e0 with
    | other m0 =>
      have key : assignLoop sku_cache license_type outcomes [0, 1, 2] 2 0 [] =
          { success := false, attemptsMade := 1, delays := [] } := by
        simp [assignLoop, h, h0]
      rw [key]
      refine ⟨by decide, by decide, fun hno => ?_⟩
      exact absurd h0 (hno 0 (by omega) m0)
    | apiError m0 =>
      cases h1 : outcomes 1 with
      | ok u =>
        have key : assignLoop sku_cache license_type outcomes [0, 1, 2] 2 0 [] =
            { success := true, attemptsMade := 2, delays := [2] } := by
          simp [assignLoop, h, h0, h1]
        rw [key]
        refine ⟨by decide, by decide, fun _ => ?_⟩
        constructor
        · intro hfalse; exact absurd hfalse (by decide)
        · intro hall
          obtain ⟨m, hm⟩ := hall 1 (by omega)
          simp [h1] at hm
      | error e1 =>
        cases e1 with
        | other m1 =>
          have key : assignLoop sku_cache license_type outcomes [0, 1, 2] 2 0 [] =
              { success := false, attemptsMade := 2, delays := [2] } := by
            simp [assignLoop, h, h0, h1]
          rw [key]
          refine ⟨by decide, by decide, fun hno => ?_⟩
          exact absurd h1 (hno 1 (by omega) m1)
        | apiError m1 =>
          cases h2 : outcomes 2 with
          | ok u =>
            have key : assignLoop sku_cache license_type outcomes [0, 1, 2] 2 0 [] =
                { success := true, attemptsMade := 3, delays := [2, 4] } := by
              simp [assignLoop, h, h0, h1, h2]
            rw [key]
            refine ⟨by decide, by decide, fun _ => ?_⟩
            constructor
            · intro hfalse; exact absurd hfalse (by decide)
            · intro hall
              obtain ⟨m, hm⟩ := hall 2 (by omega)
              simp [h2] at hm
          | error e2 =>
            cases e2 with
            | other m2 =>
              have key : assignLoop sku_cache license_type outcomes [0, 1, 2] 2 0 [] =
                  { success := false, attemptsMade := 3, delays := [2, 4] } := by
                simp [assignLoop, h, h0, h1, h2]
              rw [key]
              refine ⟨by decide, by decide, fun hno => ?_⟩
              exact absurd h2 (hno 2 (by omega) m2)
            | apiError m2 =>
              have key : assignLoop sku_cache license_type outcomes [0, 1, 2] 2 0 [] =
                  { success := false, attemptsMade := 3, delays := [2, 4] } := by
                simp [assignLoop, h, h0, h1, h2]
              rw [key]
              refine ⟨by decide, by decide, fun _ => ?_⟩
              constructor
              · intro _ i hi
                interval_cases i
                · exact ⟨m0, h0⟩
                · exact ⟨m1, h1⟩
                · exact ⟨m2, h2⟩
              · intro _; rfl

theorem assign_license_retry_spec_witness :
    (assign_license (some [("SPE_E3", "sku-1")]) "E3"
        (fun _ => .error (.apiError "throttled"))).attemptsMade ≤ 3 ∧
    (assign_license (some [("SPE_E3", "sku-1")]) "E3"
        (fun _ => .error (.apiError "throttled"))).delays =
      [2, 4].take ((assign_license (some [("SPE_E3", "sku-1")]) "E3"
        (fun _ => .error (.apiError "throttled"))).attemptsMade - 1) ∧
    ((∀ i, i < 3 → ∀ m, (fun _ => (.error (.apiError "throttled") :
        Except PyErr Unit)) i ≠ .error (.other m)) →
      ((assign_license (some [("SPE_E3", "sku-1")]) "E3"
          (fun _ => .error (.apiError "throttled"))).success = false ↔
        ∀ i, i < 3 → ∃ m, (fun _ => (.error (.apiError "throttled") :
          Except PyErr Unit)) i = .error (.apiError m))) :=
  assign_license_retry_spec (some [("SPE_E3", "sku-1")]) "E3"
    (fun _ => .error (.apiError "throttled")) "sku-1" (by decide)

/-- C4 counterexample: `get_sku_id` returns the same `None` for the
unmapped tier `BOGUS` as for the no-op tier `NONE` — there is no
`NotFound` outcome distinct from `None` in its return value. -/
theorem get_sku_id_unknown_tier_counterexample :
    get_sku_id (some [("SPE_E3", "sku-1")]) "BOGUS" = .ok none ∧
    get_sku_id (some [("SPE_E3", "sku-1")]) "NONE" = .ok none ∧
    pyUpper "BOGUS" ≠ "NONE" ∧
    LICENSE_SKU_MAPPING.lookup (pyUpper "BOGUS") = none := by decide

/-- C4 (amended): `get_sku_id` returns `None` both for the no-op tier
`NONE` and (after logging an error) for an unmapped tier; the return value
does not distinguish them.  The no-op / error distinction is made by the
caller `assign_license`, which returns success for tier `NONE` without
consulting the resolver and treats a `None` from the resolver as a step
failure, so an unmapped tier is an error, not a no-op. -/
theorem get_sku_id_none_vs_unknown (cache : List (String × String))
    (license_type : String) (outcomes : Nat → Except PyErr Unit)
    (hc : cache ≠ []) :
    (pyUpper license_type = "NONE" →
      get_sku_id (some cache) license_type = .ok none ∧
      assign_license (some cache) license_type outcomes =
        { success := true, attemptsMade := 0, delays := [] }) ∧
    (LICENSE_SKU_MAPPING.lookup (pyUpper license_type) = none →
      get_sku_id (some cache) license_type = .ok none ∧
      assign_license (some cache) license_type outcomes =
        { success := false, attemptsMade := 0, delays := [] }) := by
  constructor
  · intro he
    exact ⟨by simp [get_sku_id, hc, he], by simp [assign_license, he]⟩
  · intro hl
    have hne : pyUpper license_type ≠ "NONE" := by
      intro he
      rw [he] at hl
      rw [show LICENSE_SKU_MAPPING.lookup "NONE" = some none from by decide] at hl
      simp at hl
    have hg : get_sku_id (some cache) license_type = .ok none := by
      simp [get_sku_id, hc, hne, mappingGet, hl]
    refine ⟨hg, ?_⟩
    rw [assign_license, if_neg hne, show List.range 3 = [0, 1, 2] from rfl]
    simp [assignLoop, hg]

theorem get_sku_id_none_vs_unknown_witness :
    get_sku_id (some [("SPE_E3", "sku-1")]) "FOO" = .ok none ∧
    assign_license (some [("SPE_E3", "sku-1")]) "FOO" (fun _ => .ok ()) =
      { success := false, attemptsMade := 0, delays := [] } :=
  (get_sku_id_none_vs_unknown [("SPE_E3", "sku-1")] "FOO" (fun _ => .ok ())
    (by decide)).2 (by decide)

/-- C6: the validator returns a `(valid, errors)` pair (it is a total
function, so it never throws), `valid = true` exactly when `errors` is
empty, and every defect any of the five checks detects — missing required
fields, missing `@`, duplicate principal, unresolvable manager, unknown
license tier — appears in `errors`: no check short-circuits the others. -/
theorem validate_user_data_spec (ud : UserData) (env : Env) :
    ((validate_user_data ud env).1 = true ↔ (validate_user_data ud env).2 = []) ∧
    (∀ e : String,
      e ∈ requiredFieldErrors ud ∨ e ∈ upnFormatErrors ud ∨
      e ∈ duplicateErrors ud env ∨ e ∈ managerErrors ud env ∨
      e ∈ licenseTypeErrors ud →
      e ∈ (validate_user_data ud env).2) := by
  constructor
  · rw [validate_fst_isEmpty]
    cases h2 : (validate_user_data ud env).2 <;> simp
  · intro e he
    simp only [validate_user_data, List.mem_append]
    tauto

/-- Record used by the validator witness: missing first name, malformed
principal name, duplicate principal, unknown manager, unknown tier. -/
def udBad : UserData :=
  { last_name := some "B"
    user_principal_name := some "ax.com"
    manager_email := some "ghost@x.com"
    license_type := some "FOO" }

/-- Environment used by the validator witness. -/
def envBad : Env :=
  { existingUsers := .ok ["ax.com"]
    managerLookup := fun _ => .ok []
    pwFuel := 1
    pwDraw := drawW
    createPost := some "uid-1"
    sku_cache := some [("SPE_E3", "sku-1")]
    licenseOutcomes := fun _ => .ok ()
    groupLookup := fun _ => .ok ["gid"]
    groupAdd := fun _ => .ok ()
    mailboxPatch := .ok () }

theorem validate_user_data_spec_witness :
    "Invalid license type: FOO. Must be one of: E3, E5, INTUNE, NONE" ∈
      (validate_user_data udBad envBad).2 :=
  (validate_user_data_spec udBad envBad).2 _
    (Or.inr (Or.inr (Or.inr (Or.inr (by decide)))))

/-- C5: the result of `onboard_user` has `success = true` exactly when its
`errors` list is empty (per-record errors are returned as result data —
`onboard_user` is a total function into results, nothing escapes it). -/
theorem onboard_user_errors_iff (ud : UserData) (env : Env) :
    ((onboard_user ud env).1.success = true ↔
      (onboard_user ud env).1.errors = []) := by
  cases hv : (validate_user_data ud env).1 with
  | false =>
    have hne : (validate_user_data ud env).2 ≠ [] := by
      intro h2
      rw [validate_fst_isEmpty, h2] at hv
      simp at hv
    rw [onboard_path_validation_fail ud env hv]
    simpa using hne
  | true =>
    cases hc : create_user ud env with
    | none =>
      rw [onboard_path_create_fail ud env hv hc]
      simp
    | some info =>
      cases hl : (assign_license env.sku_cache (ud.license_type.getD "")
          env.licenseOutcomes).success with
      | false =>
        rw [onboard_path_rollback ud env info hv hc hl]
        simp
      | true =>
        obtain ⟨hs, _, _, _, herr, _⟩ := onboard_path_success ud env info hv hc hl
        rw [hs, herr]
        simp

/-- C1: `success = true` implies both `user_created = true` and
`license_assigned = true`; whenever license assignment succeeded the
record ends successful and the mailbox step is attempted (group or
mailbox failures are recorded only); and the final `success` value does
not depend on the group-lookup, group-add or mailbox outcomes at all. -/
theorem onboard_user_success_invariant (ud : UserData) (env : Env) :
    ((onboard_user ud env).1.success = true →
      (onboard_user ud env).1.user_created = true ∧
      (onboard_user ud env).1.license_assigned = true) ∧
    ((onboard_user ud env).1.license_assigned = true →
      (onboard_user ud env).1.success = true ∧
      (onboard_user ud env).2.mailboxAttempted = true) ∧
    (∀ gl ga mp,
      (onboard_user ud
        { env with
          groupLookup := gl
          groupAdd := ga
          mailboxPatch := mp }).1.success = (onboard_user ud env).1.success) := by
  have hval : ∀ gl ga mp,
      validate_user_data ud
        { env with
          groupLookup := gl
          groupAdd := ga
          mailboxPatch := mp } = validate_user_data ud env := fun _ _ _ => rfl
  have hcre : ∀ gl ga mp,
      create_user ud
        { env with
          groupLookup := gl
          groupAdd := ga
          mailboxPatch := mp } = create_user ud env := fun _ _ _ => rfl
  cases hv : (validate_user_data ud env).1 with
  | false =>
    rw [onboard_path_validation_fail ud env hv]
    refine ⟨fun hs => by simp at hs, fun hs => by simp at hs, ?_⟩
    intro gl ga mp
    rw [onboard_path_validation_fail ud
        { env with
          groupLookup := gl
          groupAdd := ga
          mailboxPatch := mp } (by rw [hval gl ga mp]; exact hv)]
  | true =>
    cases hc : create_user ud env with
    | none =>
      rw [onboard_path_create_fail ud env hv hc]
      refine ⟨fun hs => by simp at hs, fun hs => by simp at hs, ?_⟩
      intro gl ga mp
      rw [onboard_path_create_fail ud
          { env with
            groupLookup := gl
            groupAdd := ga
            mailboxPatch := mp } (by rw [hval gl ga mp]; exact hv)
        (by rw [hcre gl ga mp]; exact hc)]
    | some info =>
      cases hl : (assign_license env.sku_cache (ud.license_type.getD "")
          env.licenseOutcomes).success with
      | false =>
        rw [onboard_path_rollback ud env info hv hc hl]
        refine ⟨fun hs => by simp at hs, fun hs => by simp at hs, ?_⟩
        intro gl ga mp
        rw [onboard_path_rollback ud
            { env with
              groupLookup := gl
              groupAdd := ga
              mailboxPatch := mp } info
          (by rw [hval gl ga mp]; exact hv)
          (by rw [hcre gl ga mp]; exact hc) hl]
      | true =>
        obtain ⟨hs, hu, hla, _, _, htr⟩ := onboard_path_success ud env info hv hc hl
        refine ⟨fun _ => ⟨hu, hla⟩, fun _ => ⟨hs, by rw [htr]⟩, ?_⟩
        intro gl ga mp
        obtain ⟨hs2, _, _, _, _, _⟩ :=
          onboard_path_success ud
            { env with
              groupLookup := gl
              groupAdd := ga
              mailboxPatch := mp }
            info (by rw [hval gl ga mp]; exact hv)
            (by rw [hcre gl ga mp]; exact hc) hl
        rw [hs2, hs]

/-- Well-formed record used by the orchestrator witnesses. -/
def udW : UserData :=
  { first_name := some "A"
    last_name := some "B"
    user_principal_name := some "a@x.com"
    license_type := some "E3"
    groups := some "IT" }

/-- Base environment for the orchestrator witnesses: everything succeeds. -/
def envBase : Env :=
  { existingUsers := .ok []
    managerLookup := fun _ => .ok ["mgr"]
    pwFuel := 1
    pwDraw := drawW
    createPost := some "uid-1"
    sku_cache := some [("SPE_E3", "sku-1")]
    licenseOutcomes := fun _ => .ok ()
    groupLookup := fun _ => .ok ["gid"]
    groupAdd := fun _ => .ok ()
    mailboxPatch := .ok () }

/-- Environment where the group-add and mailbox calls fail (best-effort
steps) while everything mandatory succeeds. -/
def envBestEffortFail : Env :=
  { envBase with
    groupAdd := fun _ => .error (.other "transient")
    mailboxPatch := .error (.apiError "mailbox busy") }

theorem onboard_user_success_invariant_witness :
    (onboard_user udW envBestEffortFail).1.success = true ∧
    (onboard_user udW envBestEffortFail).1.user_created = true ∧
    (onboard_user udW envBestEffortFail).1.license_assigned = true ∧
    (onboard_user udW envBestEffortFail).2.mailboxAttempted = true := by
  have h := onboard_user_success_invariant udW envBestEffortFail
  have hs : (onboard_user udW envBestEffortFail).1.success = true := by decide
  exact ⟨hs, (h.1 hs).1, (h.1 hs).2, (h.2.1 (h.1 hs).2).2⟩

/-- Environment where license assignment fails on every attempt. -/
def envLicFail : Env :=
  { envBase with licenseOutcomes := fun _ => .error (.apiError "throttled") }

/-- The info dict `create_user` produces under `envLicFail`. -/
def infoW : CreatedInfo :=
  { user_id := "uid-1"
    upn := "a@x.com"
    display_name := "A B"
    temp_password := pwW
    created := true }

/-- C2: when validation and account creation succeeded but license
assignment fails, the compensating delete is invoked exactly once, on the id
of the created account, and the final result is a failure carrying the
`License assignment failed` error. -/
theorem onboard_user_license_fail_rollback (ud : UserData) (env : Env)
    (info : CreatedInfo)
    (hv : (validate_user_data ud env).1 = true)
    (hc : create_user ud env = some info)
    (hl : (assign_license env.sku_cache (ud.license_type.getD "")
            env.licenseOutcomes).success = false) :
    (onboard_user ud env).2.rollbacks = [info.user_id] ∧
    (onboard_user ud env).1.success = false ∧
    "License assignment failed" ∈ (onboard_user ud env).1.errors := by
  rw [onboard_path_rollback ud env info hv hc hl]
  exact ⟨rfl, rfl, by simp⟩

theorem onboard_user_license_fail_rollback_witness :
    (onboard_user udW envLicFail).2.rollbacks = ["uid-1"] ∧
    (onboard_user udW envLicFail).1.success = false ∧
    "License assignment failed" ∈ (onboard_user udW envLicFail).1.errors :=
  onboard_user_license_fail_rollback udW envLicFail infoW
    (by decide) (by decide) (by decide)

/-- C10: on the rollback path the result still reports the created account
(`user_created = true`) with the generated credential of the deleted
account; the rollback changes no field — the complete result is pinned
down. -/
theorem onboard_user_rollback_frame (ud : UserData) (env : Env)
    (info : CreatedInfo)
    (hv : (validate_user_data ud env).1 = true)
    (hc : create_user ud env = some info)
    (hl : (assign_license env.sku_cache (ud.license_type.getD "")
            env.licenseOutcomes).success = false) :
    (onboard_user ud env).1.user_created = true ∧
    (onboard_user ud env).1.temp_password = some info.temp_password ∧
    (onboard_user ud env).1.upn = ud.user_principal_name.getD "Unknown" ∧
    (onboard_user ud env).1.success = false ∧
    (onboard_user ud env).1.license_assigned = false ∧
    (onboard_user ud env).1.groups_added = (fun _ => none) ∧
    (onboard_user ud env).1.mailbox_configured = false ∧
    (onboard_user ud env).1.errors = ["License assignment failed"] := by
  rw [onboard_path_rollback ud env info hv hc hl]
  exact ⟨rfl, rfl, rfl, rfl, rfl, rfl, rfl, rfl⟩

theorem onboard_user_rollback_frame_witness :
    (onboard_user udW envLicFail).1.user_created = true ∧
    (onboard_user udW envLicFail).1.temp_password = some pwW ∧
    (onboard_user udW envLicFail).1.upn = "a@x.com" ∧
    (onboard_user udW envLicFail).1.success = false ∧
    (onboard_user udW envLicFail).1.license_assigned = false ∧
    (onboard_user udW envLicFail).1.groups_added = (fun _ => none) ∧
    (onboard_user udW envLicFail).1.mailbox_configured = false ∧
    (onboard_user udW envLicFail).1.errors = ["License assignment failed"] :=
  onboard_user_rollback_frame udW envLicFail infoW
    (by decide) (by decide) (by decide)

/-- C7: the results dict of `add_to_groups` holds exactly the input names
as keys; the boolean of each name depends only on the lookup and
add outcomes of that same name (no failure can block the processing of
another name); and
a remote `APIError` whose lowercased message contains `already exist`
(user already a member) yields `true` for that name. -/
theorem add_to_groups_spec (env : Env) (group_names : List String)
    (name : String) :
    ((add_to_groups env group_names name).isSome = true ↔
      name ∈ group_names) ∧
    (name ∈ group_names →
      add_to_groups env group_names name = some (addOneGroup env name)) ∧
    (∀ msg gid rest, name ∈ group_names →
      env.groupLookup name = .ok (gid :: rest) →
      env.groupAdd name = .error (.apiError msg) →
      containsSubChars (pyLower msg).toList "already exist".toList = true →
      add_to_groups env group_names name = some true) := by
  have hl : add_to_groups env group_names name =
      if name ∈ group_names then some (addOneGroup env name) else none :=
    add_to_groups_foldl env group_names (fun _ => none) name
  refine ⟨?_, ?_, ?_⟩
  · rw [hl]
    by_cases h : name ∈ group_names <;> simp [h]
  · intro h
    rw [hl, if_pos h]
  · intro msg gid rest hmem hlk hadd hsub
    rw [hl, if_pos hmem]
    have hone : addOneGroup env name = true := by
      simp only [addOneGroup, hlk, hadd]
      simpa using hsub
    rw [hone]

/-- Environment for the `add_to_groups` witness: the add call for `IT`
reports the user as already a member. -/
def envGrp : Env :=
  { envBase with
    groupLookup := fun _ => .ok ["gid-9"]
    groupAdd := fun n =>
      if n = "IT" then .error (.apiError "References already EXIST") else .ok () }

theorem add_to_groups_spec_witness :
    add_to_groups envGrp ["IT", "Sales"] "IT" = some true :=
  (add_to_groups_spec envGrp ["IT", "Sales"] "IT").2.2
    "References already EXIST" "gid-9" []
    (by decide) (by decide) (by decide) (by decide)

end Onboarding
